import Mathlib

/-!
Shallow embedding of the diagnostics-framework core
(models.py, registry.py, runner.py) and proofs of the spec claims.

Data values handed to plugin callables are opaque to the core, so they are a
type parameter `α`; figures produced by plot callables are a type parameter
`β`.  Timestamps (datetime.now in the source) are modelled as an explicit
`now : Nat` argument.  Python dicts (insertion ordered, unique keys) are
modelled as association lists with first-match lookup and in-place update.
-/

/-- Status enumeration from models.py: PASS, FAIL, WARNING, ERROR. -/
inductive DiagnosticStatus where
  | PASS
  | FAIL
  | WARNING
  | ERROR
deriving Repr, DecidableEq

/-- DiagnosticResult dataclass from models.py.  `details` is a string-keyed
mapping (the runner only ever stores a traceback string in it); `timestamp`
is the construction time. -/
structure DiagnosticResult where
  test_name : String
  status : DiagnosticStatus
  message : String
  details : List (String × String)
  timestamp : Nat
deriving Repr, DecidableEq

/-- SystemInfo dataclass from models.py. -/
structure SystemInfo where
  name : String
  description : String
  version : String
deriving Repr, DecidableEq

/-- A value a Python test callable can return: either an actual
DiagnosticResult, or any other value (isinstance fails), carried opaquely
as a string rendering. -/
inductive PyValue where
  | result (r : DiagnosticResult)
  | other (v : String)
deriving Repr, DecidableEq

/-- Outcome of invoking a Python callable on data: it returns a value or it
raises; a raised fault carries its description (str(e)) and the full
traceback text (traceback.format_exc()). -/
inductive CallOutcome where
  | returns (v : PyValue)
  | raises (e : String) (tb : String)
deriving Repr, DecidableEq

/-- TestInfo dataclass from models.py; `fn` is the test callable. -/
structure TestInfo (α : Type) where
  name : String
  description : String
  fn : α → CallOutcome

/-- PlotInfo dataclass from models.py; the plot callable produces a figure
of opaque type `β`. -/
structure PlotInfo (α β : Type) where
  name : String
  description : String
  fn : α → β

/-- ReportInfo dataclass from models.py; the report callable produces text. -/
structure ReportInfo (α : Type) where
  name : String
  description : String
  fn : α → String

/-- DiagnosticSummary dataclass from models.py. -/
structure DiagnosticSummary where
  system_name : String
  results : List DiagnosticResult
  timestamp : Nat
deriving Repr, DecidableEq

/-- pass_count property: sum(1 for r in results if r.status == PASS). -/
def DiagnosticSummary.pass_count (s : DiagnosticSummary) : Nat :=
  s.results.countP (fun r => r.status == DiagnosticStatus.PASS)

/-- fail_count property: sum(1 for r in results if r.status == FAIL). -/
def DiagnosticSummary.fail_count (s : DiagnosticSummary) : Nat :=
  s.results.countP (fun r => r.status == DiagnosticStatus.FAIL)

/-- warning_count property: sum(1 for r in results if r.status == WARNING). -/
def DiagnosticSummary.warning_count (s : DiagnosticSummary) : Nat :=
  s.results.countP (fun r => r.status == DiagnosticStatus.WARNING)

/-- error_count property: sum(1 for r in results if r.status == ERROR). -/
def DiagnosticSummary.error_count (s : DiagnosticSummary) : Nat :=
  s.results.countP (fun r => r.status == DiagnosticStatus.ERROR)

/-- First-match lookup in an association list, the model of Python
`d.get(k, default)` / `d[k]` over an insertion-ordered dict. -/
def alGet {β : Type} (k : String) : List (String × β) → Option β
  | [] => none
  | (k2, v) :: rest => if k2 = k then some v else alGet k rest

/-- Model of Python `d[k] = v`: overwrite in place if the key exists,
append at the end otherwise. -/
def alSet {β : Type} (k : String) (v : β) : List (String × β) → List (String × β)
  | [] => [(k, v)]
  | (k2, v2) :: rest => if k2 = k then (k, v) :: rest else (k2, v2) :: alSet k v rest

/-- Model of Python `d.setdefault(k, v)` used for its effect: insert `(k, v)`
at the end if `k` is absent, leave the dict unchanged otherwise. -/
def alSetdefault {β : Type} (k : String) (v : β) : List (String × β) → List (String × β)
  | [] => [(k, v)]
  | (k2, v2) :: rest => if k2 = k then (k2, v2) :: rest else (k2, v2) :: alSetdefault k v rest

/-- Model of Python `d.setdefault(k, []).append(x)`: append `x` to the list
stored at `k`, creating the entry with `[x]` at the end if `k` is absent. -/
def alAppendAt {β : Type} (k : String) (x : β) : List (String × List β) → List (String × List β)
  | [] => [(k, [x])]
  | (k2, vs) :: rest =>
      if k2 = k then (k2, vs ++ [x]) :: rest else (k2, vs) :: alAppendAt k x rest

/-- The DiagnosticsRegistry state from registry.py: the four dicts held by
the singleton instance (the singleton is modelled by passing the state
explicitly). -/
structure DiagnosticsRegistry (α β : Type) where
  systems : List (String × SystemInfo)
  tests : List (String × List (TestInfo α))
  plots : List (String × List (PlotInfo α β))
  reports : List (String × List (ReportInfo α))

/-- The freshly constructed registry: all four dicts empty. -/
def DiagnosticsRegistry.empty (α β : Type) : DiagnosticsRegistry α β :=
  ⟨[], [], [], []⟩

/-- add_system from registry.py: overwrite the SystemInfo for `name` and
setdefault empty entry lists in the other three dicts. -/
def DiagnosticsRegistry.add_system {α β : Type} (reg : DiagnosticsRegistry α β)
    (name description version : String) : DiagnosticsRegistry α β :=
  { systems := alSet name (SystemInfo.mk name description version) reg.systems
    tests := alSetdefault name [] reg.tests
    plots := alSetdefault name [] reg.plots
    reports := alSetdefault name [] reg.reports }

/-- add_test from registry.py: `self._tests.setdefault(system, []).append(test_info)`. -/
def DiagnosticsRegistry.add_test {α β : Type} (reg : DiagnosticsRegistry α β)
    (system : String) (test_info : TestInfo α) : DiagnosticsRegistry α β :=
  { reg with tests := alAppendAt system test_info reg.tests }

/-- add_plot from registry.py. -/
def DiagnosticsRegistry.add_plot {α β : Type} (reg : DiagnosticsRegistry α β)
    (system : String) (plot_info : PlotInfo α β) : DiagnosticsRegistry α β :=
  { reg with plots := alAppendAt system plot_info reg.plots }

/-- add_report from registry.py. -/
def DiagnosticsRegistry.add_report {α β : Type} (reg : DiagnosticsRegistry α β)
    (system : String) (report_info : ReportInfo α) : DiagnosticsRegistry α β :=
  { reg with reports := alAppendAt system report_info reg.reports }

/-- get_systems from registry.py: a snapshot of the systems dict. -/
def DiagnosticsRegistry.get_systems {α β : Type} (reg : DiagnosticsRegistry α β) :
    List (String × SystemInfo) :=
  reg.systems

/-- get_tests from registry.py: `list(self._tests.get(system, []))`. -/
def DiagnosticsRegistry.get_tests {α β : Type} (reg : DiagnosticsRegistry α β)
    (system : String) : List (TestInfo α) :=
  (alGet system reg.tests).getD []

/-- get_plots from registry.py: `list(self._plots.get(system, []))`. -/
def DiagnosticsRegistry.get_plots {α β : Type} (reg : DiagnosticsRegistry α β)
    (system : String) : List (PlotInfo α β) :=
  (alGet system reg.plots).getD []

/-- get_reports from registry.py: `list(self._reports.get(system, []))`. -/
def DiagnosticsRegistry.get_reports {α β : Type} (reg : DiagnosticsRegistry α β)
    (system : String) : List (ReportInfo α) :=
  (alGet system reg.reports).getD []

/-- The loop body of run_diagnostics (runner.py lines 16-33) for one test
entry: invoke the callable; append its result verbatim when it is a
DiagnosticResult; otherwise synthesize an ERROR result naming the test;
when the call raises, synthesize an ERROR result embedding the message and
carrying the traceback in details. -/
def run_one_test {α : Type} (test_info : TestInfo α) (data : α) (now : Nat) :
    DiagnosticResult :=
  match test_info.fn data with
  | .returns (.result r) => r
  | .returns (.other _) =>
      { test_name := test_info.name
        status := DiagnosticStatus.ERROR
        message := "Test \x27" ++ test_info.name ++ "\x27 did not return a DiagnosticResult."
        details := []
        timestamp := now }
  | .raises e tb =>
      { test_name := test_info.name
        status := DiagnosticStatus.ERROR
        message := "Test raised an exception: " ++ e
        details := [("traceback", tb)]
        timestamp := now }

/-- run_diagnostics from runner.py: fetch the registered tests and produce
one result per test, in order, never failing. -/
def run_diagnostics {α β : Type} (reg : DiagnosticsRegistry α β)
    (system_name : String) (data : α) (now : Nat) : DiagnosticSummary :=
  { system_name := system_name
    results := (reg.get_tests system_name).map (fun t => run_one_test t data now)
    timestamp := now }

/-- The ValueError message raised by generate_plot when no plot matches. -/
def plotNotFoundMsg (plot_name system_name : String) : String :=
  "Plot \x27" ++ plot_name ++ "\x27 not found for system \x27" ++ system_name ++ "\x27."

/-- The ValueError message raised by generate_report when no report matches. -/
def reportNotFoundMsg (report_name system_name : String) : String :=
  "Report \x27" ++ report_name ++ "\x27 not found for system \x27" ++ system_name ++ "\x27."

/-- generate_plot from runner.py: linear first-match search of the
registered plots; the raised ValueError is modelled as the error branch. -/
def generate_plot {α β : Type} (reg : DiagnosticsRegistry α β)
    (system_name plot_name : String) (data : α) : Except String β :=
  match (reg.get_plots system_name).find? (fun p => p.name == plot_name) with
  | some plot_info => .ok (plot_info.fn data)
  | none => .error (plotNotFoundMsg plot_name system_name)

/-- generate_report from runner.py: identical shape to generate_plot over
the report sequence. -/
def generate_report {α β : Type} (reg : DiagnosticsRegistry α β)
    (system_name report_name : String) (data : α) : Except String String :=
  match (reg.get_reports system_name).find? (fun r => r.name == report_name) with
  | some report_info => .ok (report_info.fn data)
  | none => .error (reportNotFoundMsg report_name system_name)

/-- Claim C1: for every system name and data value, run_diagnostics returns
a summary with exactly one result per registered test, in registration
order (the i-th result is the translation of the i-th registered test),
and — being a total function into DiagnosticSummary — it never raises to
its caller, whatever the test callables do. -/
theorem run_diagnostics_one_result_per_test {α β : Type}
    (reg : DiagnosticsRegistry α β) (system_name : String) (data : α) (now : Nat) :
    (run_diagnostics reg system_name data now).results.length
        = (reg.get_tests system_name).length ∧
    ∀ i : Nat, (run_diagnostics reg system_name data now).results.get? i
        = ((reg.get_tests system_name).get? i).map (fun t => run_one_test t data now) := by
  constructor
  · simp [run_diagnostics]
  · intro i
    simp [run_diagnostics]

/-- Claim C2: when the i-th registered test raises, the i-th result of the
summary is a synthesized ERROR result whose message embeds the fault
description and whose details carries the full traceback, and the batch
still holds one result per registered test (the fault neither escapes
run_diagnostics nor suppresses later tests). -/
theorem run_diagnostics_isolates_raised_fault {α β : Type}
    (reg : DiagnosticsRegistry α β) (system_name : String) (data : α) (now : Nat)
    (i : Nat) (t : TestInfo α) (e tb : String)
    (hi : (reg.get_tests system_name).get? i = some t)
    (hf : t.fn data = CallOutcome.raises e tb) :
    (run_diagnostics reg system_name data now).results.get? i
        = some (DiagnosticResult.mk t.name DiagnosticStatus.ERROR
            ("Test raised an exception: " ++ e) [("traceback", tb)] now) ∧
    (run_diagnostics reg system_name data now).results.length
        = (reg.get_tests system_name).length := by
  refine ⟨?_, by simp [run_diagnostics]⟩
  have hmap : (run_diagnostics reg system_name data now).results.get? i
      = ((reg.get_tests system_name).get? i).map (fun t => run_one_test t data now) := by
    simp [run_diagnostics]
  rw [hmap, hi]
  simp [run_one_test, hf]

/-- A two-test registry whose first test passes and whose second test
raises: the scenario for the fault-isolation witnesses. -/
def tBoom : TestInfo Nat :=
  ⟨"t2", "", fun _ => CallOutcome.raises "boom" "Traceback: boom"⟩

/-- A test that returns a well-formed passing DiagnosticResult under its
registered name. -/
def tPass : TestInfo Nat :=
  ⟨"t1", "", fun _ => CallOutcome.returns (PyValue.result
      (DiagnosticResult.mk "t1" DiagnosticStatus.PASS "ok" [] 0))⟩

/-- Registry used by the fault-isolation witness: system "sys" with tPass
then tBoom. -/
def cregBoom : DiagnosticsRegistry Nat Nat :=
  ⟨[], [("sys", [tPass, tBoom])], [], []⟩

/-- Witness for C2 at a concrete input: in cregBoom the second test raises,
the second result is the synthesized ERROR result, and the summary still
has one result per test. -/
theorem run_diagnostics_isolates_raised_fault_witness :
    (run_diagnostics cregBoom "sys" 0 0).results.get? 1
        = some (DiagnosticResult.mk tBoom.name DiagnosticStatus.ERROR
            ("Test raised an exception: " ++ "boom") [("traceback", "Traceback: boom")] 0) ∧
    (run_diagnostics cregBoom "sys" 0 0).results.length
        = (cregBoom.get_tests "sys").length :=
  run_diagnostics_isolates_raised_fault cregBoom "sys" 0 0 1 tBoom "boom"
    "Traceback: boom" rfl rfl

/-- Claim C3: when the i-th registered test returns a value that is not a
DiagnosticResult, the i-th result of the summary is a synthesized ERROR
result whose message names the offending test, and the violation does not
escape run_diagnostics (one result per registered test still). -/
theorem run_diagnostics_flags_contract_violation {α β : Type}
    (reg : DiagnosticsRegistry α β) (system_name : String) (data : α) (now : Nat)
    (i : Nat) (t : TestInfo α) (v : String)
    (hi : (reg.get_tests system_name).get? i = some t)
    (hf : t.fn data = CallOutcome.returns (PyValue.other v)) :
    (run_diagnostics reg system_name data now).results.get? i
        = some (DiagnosticResult.mk t.name DiagnosticStatus.ERROR
            ("Test \x27" ++ t.name ++ "\x27 did not return a DiagnosticResult.") [] now) ∧
    (run_diagnostics reg system_name data now).results.length
        = (reg.get_tests system_name).length := by
  refine ⟨?_, by simp [run_diagnostics]⟩
  have hmap : (run_diagnostics reg system_name data now).results.get? i
      = ((reg.get_tests system_name).get? i).map (fun t => run_one_test t data now) := by
    simp [run_diagnostics]
  rw [hmap, hi]
  simp [run_one_test, hf]

/-- A test whose callable returns a plain string instead of a
DiagnosticResult. -/
def tString : TestInfo Nat :=
  ⟨"t3", "", fun _ => CallOutcome.returns (PyValue.other "just a string")⟩

/-- Registry used by the contract-violation witness: system "sys" with the
single test tString. -/
def cregString : DiagnosticsRegistry Nat Nat :=
  ⟨[], [("sys", [tString])], [], []⟩

/-- Witness for C3 at a concrete input: tString returns a plain string, and
the summary records an ERROR result naming "t3". -/
theorem run_diagnostics_flags_contract_violation_witness :
    (run_diagnostics cregString "sys" 0 0).results.get? 0
        = some (DiagnosticResult.mk tString.name DiagnosticStatus.ERROR
            ("Test \x27" ++ tString.name ++ "\x27 did not return a DiagnosticResult.") [] 0) ∧
    (run_diagnostics cregString "sys" 0 0).results.length
        = (cregString.get_tests "sys").length :=
  run_diagnostics_flags_contract_violation cregString "sys" 0 0 0 tString
    "just a string" rfl rfl

/-- The four status counts of a result list partition its length. -/
theorem countP_status_partition (l : List DiagnosticResult) :
    l.countP (fun r => r.status == DiagnosticStatus.PASS)
      + l.countP (fun r => r.status == DiagnosticStatus.FAIL)
      + l.countP (fun r => r.status == DiagnosticStatus.WARNING)
      + l.countP (fun r => r.status == DiagnosticStatus.ERROR) = l.length := by
  induction l with
  | nil => rfl
  | cons r rest ih =>
    simp only [List.countP_cons, List.length_cons]
    cases h : r.status <;> simp [h] <;> omega

/-- Claim C5: for every summary, the four on-demand status counts sum to
the number of results, and each count is exactly the count of that status
over the current result sequence (derived, not cached). -/
theorem summary_counts_partition (s : DiagnosticSummary) :
    s.pass_count + s.fail_count + s.warning_count + s.error_count
        = s.results.length ∧
    s.pass_count = s.results.countP (fun r => r.status == DiagnosticStatus.PASS) ∧
    s.fail_count = s.results.countP (fun r => r.status == DiagnosticStatus.FAIL) ∧
    s.warning_count = s.results.countP (fun r => r.status == DiagnosticStatus.WARNING) ∧
    s.error_count = s.results.countP (fun r => r.status == DiagnosticStatus.ERROR) :=
  ⟨countP_status_partition s.results, rfl, rfl, rfl, rfl⟩

/-- Claim C4: generate_plot and generate_report are first-match linear
searches: when no registered entry bears the requested name they fail with
a not-found error whose message names both the system and the entry, and
when the search finds an entry they return that entry's callable applied
to the data, unmodified. -/
theorem generate_plot_report_lookup {α β : Type} (reg : DiagnosticsRegistry α β)
    (system_name plot_name report_name : String) (data : α) :
    ((∀ p ∈ reg.get_plots system_name, p.name ≠ plot_name) →
        generate_plot reg system_name plot_name data
          = Except.error (plotNotFoundMsg plot_name system_name)) ∧
    (∀ p : PlotInfo α β,
        (reg.get_plots system_name).find? (fun q => q.name == plot_name) = some p →
        generate_plot reg system_name plot_name data = Except.ok (p.fn data)) ∧
    ((∀ r ∈ reg.get_reports system_name, r.name ≠ report_name) →
        generate_report reg system_name report_name data
          = Except.error (reportNotFoundMsg report_name system_name)) ∧
    (∀ r : ReportInfo α,
        (reg.get_reports system_name).find? (fun q => q.name == report_name) = some r →
        generate_report reg system_name report_name data = Except.ok (r.fn data)) := by
  refine ⟨?_, ?_, ?_, ?_⟩
  · intro habs
    have hnone : (reg.get_plots system_name).find? (fun q => q.name == plot_name) = none := by
      rw [List.find?_eq_none]
      intro p hp
      simpa using habs p hp
    simp [generate_plot, hnone]
  · intro p hp
    simp [generate_plot, hp]
  · intro habs
    have hnone : (reg.get_reports system_name).find? (fun q => q.name == report_name) = none := by
      rw [List.find?_eq_none]
      intro r hr
      simpa using habs r hr
    simp [generate_report, hnone]
  · intro r hr
    simp [generate_report, hr]

/-- A concrete plot entry whose callable returns the figure value 42. -/
def pDemo : PlotInfo Nat Nat := ⟨"p1", "", fun _ => 42⟩

/-- A concrete report entry whose callable returns the text "report text". -/
def rDemo : ReportInfo Nat := ⟨"r1", "", fun _ => "report text"⟩

/-- Registry used by the lookup witness: system "sys" with one plot pDemo
and one report rDemo. -/
def cregLookup : DiagnosticsRegistry Nat Nat :=
  ⟨[], [], [("sys", [pDemo])], [("sys", [rDemo])]⟩

/-- Witness for C4 at concrete inputs: the missing names "nope" fail with
the message naming both identifiers, and the registered names return the
callables' outputs unmodified. -/
theorem generate_plot_report_lookup_witness :
    generate_plot cregLookup "sys" "nope" 0
        = Except.error (plotNotFoundMsg "nope" "sys") ∧
    generate_plot cregLookup "sys" "p1" 0 = Except.ok (pDemo.fn 0) ∧
    generate_report cregLookup "sys" "nope" 0
        = Except.error (reportNotFoundMsg "nope" "sys") ∧
    generate_report cregLookup "sys" "r1" 0 = Except.ok (rDemo.fn 0) :=
  ⟨(generate_plot_report_lookup cregLookup "sys" "nope" "nope" 0).1
      (by intro p hp; simp [cregLookup, DiagnosticsRegistry.get_plots, alGet, pDemo] at hp
          subst hp; decide),
   (generate_plot_report_lookup cregLookup "sys" "p1" "p1" 0).2.1 pDemo rfl,
   (generate_plot_report_lookup cregLookup "sys" "nope" "nope" 0).2.2.1
      (by intro r hr; simp [cregLookup, DiagnosticsRegistry.get_reports, alGet, rDemo] at hr
          subst hr; decide),
   (generate_plot_report_lookup cregLookup "sys" "r1" "r1" 0).2.2.2 rDemo rfl⟩

/-- Claim C6: a system name that was never registered (absent from all four
dicts) yields empty sequences from get_tests, get_plots and get_reports,
and run_diagnostics on it returns an empty summary rather than an error. -/
theorem unknown_system_is_empty {α β : Type} (reg : DiagnosticsRegistry α β)
    (system : String) (data : α) (now : Nat)
    (_hs : alGet system reg.systems = none)
    (ht : alGet system reg.tests = none)
    (hp : alGet system reg.plots = none)
    (hr : alGet system reg.reports = none) :
    reg.get_tests system = [] ∧
    reg.get_plots system = [] ∧
    reg.get_reports system = [] ∧
    (run_diagnostics reg system data now).results = [] := by
  refine ⟨?_, ?_, ?_, ?_⟩
  · simp [DiagnosticsRegistry.get_tests, ht]
  · simp [DiagnosticsRegistry.get_plots, hp]
  · simp [DiagnosticsRegistry.get_reports, hr]
  · simp [run_diagnostics, DiagnosticsRegistry.get_tests, ht]

/-- Witness for C6 at a concrete input: the name "ghost" was never
registered in cregLookup, so all accessors are empty and the run summary
is empty. -/
theorem unknown_system_is_empty_witness :
    (cregLookup.get_tests "ghost" = []) ∧
    (cregLookup.get_plots "ghost" = []) ∧
    (cregLookup.get_reports "ghost" = []) ∧
    (run_diagnostics cregLookup "ghost" 0 0).results = [] :=
  unknown_system_is_empty cregLookup "ghost" 0 0 rfl rfl rfl rfl

/-- Lookup after in-place overwrite at the same key. -/
theorem alGet_alSet_self {β : Type} (k : String) (v : β) (l : List (String × β)) :
    alGet k (alSet k v l) = some v := by
  induction l with
  | nil => simp [alSet, alGet]
  | cons hd rest ih =>
    obtain ⟨k2, v2⟩ := hd
    by_cases hk : k2 = k
    · simp [alSet, alGet, hk]
    · simp [alSet, alGet, hk, ih]

/-- Lookup at a different key is unchanged by alSet. -/
theorem alGet_alSet_ne {β : Type} (q k : String) (v : β) (l : List (String × β))
    (hq : q ≠ k) : alGet q (alSet k v l) = alGet q l := by
  induction l with
  | nil => simp [alSet, alGet, Ne.symm hq]
  | cons hd rest ih =>
    obtain ⟨k2, v2⟩ := hd
    by_cases hk : k2 = k
    · subst hk
      simp [alSet, alGet, Ne.symm hq]
    · by_cases hq2 : k2 = q
      · subst hq2
        simp [alSet, alGet, hq, hk]
      · simp [alSet, alGet, hk, hq2, ih]

/-- Lookup after setdefault at the same key: the stored value when the key
was present, the default otherwise. -/
theorem alGet_alSetdefault_self {β : Type} (k : String) (v : β) (l : List (String × β)) :
    alGet k (alSetdefault k v l) = some ((alGet k l).getD v) := by
  induction l with
  | nil => simp [alSetdefault, alGet]
  | cons hd rest ih =>
    obtain ⟨k2, v2⟩ := hd
    by_cases hk : k2 = k
    · simp [alSetdefault, alGet, hk]
    · simp [alSetdefault, alGet, hk, ih]

/-- Lookup at a different key is unchanged by alSetdefault. -/
theorem alGet_alSetdefault_ne {β : Type} (q k : String) (v : β) (l : List (String × β))
    (hq : q ≠ k) : alGet q (alSetdefault k v l) = alGet q l := by
  induction l with
  | nil => simp [alSetdefault, alGet, Ne.symm hq]
  | cons hd rest ih =>
    obtain ⟨k2, v2⟩ := hd
    by_cases hk : k2 = k
    · subst hk
      simp [alSetdefault, alGet, Ne.symm hq]
    · by_cases hq2 : k2 = q
      · subst hq2
        simp [alSetdefault, alGet, hq, hk]
      · simp [alSetdefault, alGet, hk, hq2, ih]

/-- Lookup after setdefault-append at the same key: the old list (empty when
the key was absent) with the new element at the end. -/
theorem alGet_alAppendAt_self {β : Type} (k : String) (x : β)
    (l : List (String × List β)) :
    alGet k (alAppendAt k x l) = some ((alGet k l).getD [] ++ [x]) := by
  induction l with
  | nil => simp [alAppendAt, alGet]
  | cons hd rest ih =>
    obtain ⟨k2, vs⟩ := hd
    by_cases hk : k2 = k
    · simp [alAppendAt, alGet, hk]
    · simp [alAppendAt, alGet, hk, ih]

/-- Lookup at a different key is unchanged by alAppendAt. -/
theorem alGet_alAppendAt_ne {β : Type} (q k : String) (x : β)
    (l : List (String × List β)) (hq : q ≠ k) :
    alGet q (alAppendAt k x l) = alGet q l := by
  induction l with
  | nil => simp [alAppendAt, alGet, Ne.symm hq]
  | cons hd rest ih =>
    obtain ⟨k2, vs⟩ := hd
    by_cases hk : k2 = k
    · subst hk
      simp [alAppendAt, alGet, Ne.symm hq]
    · by_cases hq2 : k2 = q
      · subst hq2
        simp [alAppendAt, alGet, hq, hk]
      · simp [alAppendAt, alGet, hk, hq2, ih]

/-- Claim C7: add_system (a total function, so it never fails) stores the
new SystemInfo under the name, guarantees entry lists exist for the name
in all three entry dicts, leaves every system's visible tests, plots and
reports exactly as they were, and leaves every other system's SystemInfo
untouched. -/
theorem add_system_additive {α β : Type} (reg : DiagnosticsRegistry α β)
    (name description version : String) :
    alGet name (reg.add_system name description version).systems
        = some (SystemInfo.mk name description version) ∧
    (alGet name (reg.add_system name description version).tests).isSome = true ∧
    (alGet name (reg.add_system name description version).plots).isSome = true ∧
    (alGet name (reg.add_system name description version).reports).isSome = true ∧
    (∀ s, (reg.add_system name description version).get_tests s = reg.get_tests s) ∧
    (∀ s, (reg.add_system name description version).get_plots s = reg.get_plots s) ∧
    (∀ s, (reg.add_system name description version).get_reports s = reg.get_reports s) ∧
    (∀ s, s ≠ name →
        alGet s (reg.add_system name description version).systems
          = alGet s reg.systems) := by
  refine ⟨?_, ?_, ?_, ?_, ?_, ?_, ?_, ?_⟩
  · simp [DiagnosticsRegistry.add_system, alGet_alSet_self]
  · simp [DiagnosticsRegistry.add_system, alGet_alSetdefault_self]
  · simp [DiagnosticsRegistry.add_system, alGet_alSetdefault_self]
  · simp [DiagnosticsRegistry.add_system, alGet_alSetdefault_self]
  · intro s
    by_cases hs : s = name
    · subst hs
      simp [DiagnosticsRegistry.add_system, DiagnosticsRegistry.get_tests,
        alGet_alSetdefault_self]
    · simp [DiagnosticsRegistry.add_system, DiagnosticsRegistry.get_tests,
        alGet_alSetdefault_ne s name _ _ hs]
  · intro s
    by_cases hs : s = name
    · subst hs
      simp [DiagnosticsRegistry.add_system, DiagnosticsRegistry.get_plots,
        alGet_alSetdefault_self]
    · simp [DiagnosticsRegistry.add_system, DiagnosticsRegistry.get_plots,
        alGet_alSetdefault_ne s name _ _ hs]
  · intro s
    by_cases hs : s = name
    · subst hs
      simp [DiagnosticsRegistry.add_system, DiagnosticsRegistry.get_reports,
        alGet_alSetdefault_self]
    · simp [DiagnosticsRegistry.add_system, DiagnosticsRegistry.get_reports,
        alGet_alSetdefault_ne s name _ _ hs]
  · intro s hs
    simp [DiagnosticsRegistry.add_system, alGet_alSet_ne s name _ _ hs]

/-- Registry used by the add_system witness: system "sys" already has one
registered test, plot and report. -/
def cregFull : DiagnosticsRegistry Nat Nat :=
  ⟨[("old", SystemInfo.mk "old" "" "0.1.0")], [("sys", [tPass])],
   [("sys", [pDemo])], [("sys", [rDemo])]⟩

/-- Witness for C7 at a concrete input: re-adding "sys" over cregFull keeps
the already-registered test/plot/report sequences intact, creates the entry
lists, and does not disturb the unrelated system "old". -/
theorem add_system_additive_witness :
    alGet "sys" (cregFull.add_system "sys" "d" "2.0").systems
        = some (SystemInfo.mk "sys" "d" "2.0") ∧
    (alGet "sys" (cregFull.add_system "sys" "d" "2.0").tests).isSome = true ∧
    (cregFull.add_system "sys" "d" "2.0").get_tests "sys" = cregFull.get_tests "sys" ∧
    (cregFull.add_system "sys" "d" "2.0").get_plots "sys" = cregFull.get_plots "sys" ∧
    (cregFull.add_system "sys" "d" "2.0").get_reports "sys" = cregFull.get_reports "sys" ∧
    alGet "old" (cregFull.add_system "sys" "d" "2.0").systems
        = alGet "old" cregFull.systems :=
  ⟨(add_system_additive cregFull "sys" "d" "2.0").1,
   (add_system_additive cregFull "sys" "d" "2.0").2.1,
   (add_system_additive cregFull "sys" "d" "2.0").2.2.2.2.1 "sys",
   (add_system_additive cregFull "sys" "d" "2.0").2.2.2.2.2.1 "sys",
   (add_system_additive cregFull "sys" "d" "2.0").2.2.2.2.2.2.1 "sys",
   (add_system_additive cregFull "sys" "d" "2.0").2.2.2.2.2.2.2 "old" (by decide)⟩

/-- Claim C8: add_test appends the entry at the end of the system's test
sequence (creating the sequence when the system is unknown), and likewise
add_plot and add_report; registering the same entry twice retains both
(no uniqueness check on the name). -/
theorem add_entries_append {α β : Type} (reg : DiagnosticsRegistry α β)
    (system : String) (t : TestInfo α) (p : PlotInfo α β) (r : ReportInfo α) :
    (reg.add_test system t).get_tests system = reg.get_tests system ++ [t] ∧
    (reg.add_plot system p).get_plots system = reg.get_plots system ++ [p] ∧
    (reg.add_report system r).get_reports system = reg.get_reports system ++ [r] ∧
    ((reg.add_test system t).add_test system t).get_tests system
        = reg.get_tests system ++ [t, t] := by
  refine ⟨?_, ?_, ?_, ?_⟩
  · simp [DiagnosticsRegistry.add_test, DiagnosticsRegistry.get_tests,
      alGet_alAppendAt_self]
  · simp [DiagnosticsRegistry.add_plot, DiagnosticsRegistry.get_plots,
      alGet_alAppendAt_self]
  · simp [DiagnosticsRegistry.add_report, DiagnosticsRegistry.get_reports,
      alGet_alAppendAt_self]
  · simp [DiagnosticsRegistry.add_test, DiagnosticsRegistry.get_tests,
      alGet_alAppendAt_self]

/-- A test registered under the name "t1" whose callable returns a
well-formed DiagnosticResult carrying a different test_name ("other") and
an empty message. -/
def tMislabeled : TestInfo Nat :=
  ⟨"t1", "", fun _ => CallOutcome.returns (PyValue.result
      (DiagnosticResult.mk "other" DiagnosticStatus.PASS "ok" [] 0))⟩

/-- Registry exhibiting the verbatim-append behaviour for test_name:
system "sys" with the single test tMislabeled. -/
def cregMislabeled : DiagnosticsRegistry Nat Nat :=
  ⟨[], [("sys", [tMislabeled])], [], []⟩

/-- Counterexample to claim C9 as stated: the only registered test of
cregMislabeled bears the name "t1", yet the result in the summary carries
test_name "other" — a result returned by the callable is appended verbatim
and need not match the registered name. -/
theorem result_name_matches_registered_counterexample :
    (cregMislabeled.get_tests "sys").map TestInfo.name = ["t1"] ∧
    (run_diagnostics cregMislabeled "sys" 0 0).results.map DiagnosticResult.test_name
        = ["other"] ∧
    ("other" : String) ≠ "t1" :=
  ⟨rfl, rfl, by decide⟩

/-- Claim C9 amended: results synthesized by the runner (contract violation
or raised fault) carry the registered test name; a well-formed result
returned by the callable is appended verbatim, so its test_name is whatever
the callable set and need not match the registered name. -/
theorem result_name_matches_registered_amended {α : Type}
    (t : TestInfo α) (data : α) (now : Nat) :
    (∀ v, t.fn data = CallOutcome.returns (PyValue.other v) →
        (run_one_test t data now).test_name = t.name) ∧
    (∀ e tb, t.fn data = CallOutcome.raises e tb →
        (run_one_test t data now).test_name = t.name) ∧
    (∀ r, t.fn data = CallOutcome.returns (PyValue.result r) →
        run_one_test t data now = r) := by
  refine ⟨?_, ?_, ?_⟩
  · intro v hf
    simp [run_one_test, hf]
  · intro e tb hf
    simp [run_one_test, hf]
  · intro r hf
    simp [run_one_test, hf]

/-- Witness for the amended C9 at concrete inputs: the synthesized results
of tString (contract violation) and tBoom (raised fault) carry the
registered names, while tMislabeled's verbatim result keeps the name the
callable chose. -/
theorem result_name_matches_registered_amended_witness :
    (run_one_test tString 0 0).test_name = tString.name ∧
    (run_one_test tBoom 0 0).test_name = tBoom.name ∧
    run_one_test tMislabeled 0 0
        = DiagnosticResult.mk "other" DiagnosticStatus.PASS "ok" [] 0 :=
  ⟨(result_name_matches_registered_amended tString 0 0).1 "just a string" rfl,
   (result_name_matches_registered_amended tBoom 0 0).2.1 "boom" "Traceback: boom" rfl,
   (result_name_matches_registered_amended tMislabeled 0 0).2.2
      (DiagnosticResult.mk "other" DiagnosticStatus.PASS "ok" [] 0) rfl⟩

/-- A test whose callable returns a well-formed DiagnosticResult with an
empty message. -/
def tEmptyMsg : TestInfo Nat :=
  ⟨"t1", "", fun _ => CallOutcome.returns (PyValue.result
      (DiagnosticResult.mk "t1" DiagnosticStatus.PASS "" [] 0))⟩

/-- Registry exhibiting the verbatim-append behaviour for message: system
"sys" with the single test tEmptyMsg. -/
def cregEmptyMsg : DiagnosticsRegistry Nat Nat :=
  ⟨[], [("sys", [tEmptyMsg])], [], []⟩

/-- Counterexample to claim C10 as stated: running cregEmptyMsg yields a
summary one of whose results has an empty message — the runner appends the
callable's result verbatim without checking the message. -/
theorem result_message_nonempty_counterexample :
    ¬ (∀ r ∈ (run_diagnostics cregEmptyMsg "sys" 0 0).results, r.message ≠ "") := by
  intro h
  exact h (DiagnosticResult.mk "t1" DiagnosticStatus.PASS "" [] 0) (by decide) rfl

/-- Claim C10 amended: both kinds of synthesized Error results (contract
violation and raised fault) carry a non-empty message; a result returned by
the callable is appended verbatim, so its message is exactly whatever the
callable set — possibly empty. -/
theorem result_message_nonempty_amended {α : Type}
    (t : TestInfo α) (data : α) (now : Nat) :
    (∀ v, t.fn data = CallOutcome.returns (PyValue.other v) →
        0 < (run_one_test t data now).message.length) ∧
    (∀ e tb, t.fn data = CallOutcome.raises e tb →
        0 < (run_one_test t data now).message.length) ∧
    (∀ r, t.fn data = CallOutcome.returns (PyValue.result r) →
        (run_one_test t data now).message = r.message) := by
  refine ⟨?_, ?_, ?_⟩
  · intro v hf
    simp only [run_one_test, hf]
    have h1 : (0 : Nat) < ("Test \x27" : String).length := by decide
    simp [String.length_append]
    omega
  · intro e tb hf
    simp only [run_one_test, hf]
    have h1 : (0 : Nat) < ("Test raised an exception: " : String).length := by decide
    simp [String.length_append]
    omega
  · intro r hf
    simp [run_one_test, hf]

/-- Witness for the amended C10 at concrete inputs: the synthesized
messages of tString and tBoom are non-empty, while tEmptyMsg's verbatim
result keeps its empty message. -/
theorem result_message_nonempty_amended_witness :
    0 < (run_one_test tString 0 0).message.length ∧
    0 < (run_one_test tBoom 0 0).message.length ∧
    (run_one_test tEmptyMsg 0 0).message
        = (DiagnosticResult.mk "t1" DiagnosticStatus.PASS "" [] 0).message :=
  ⟨(result_message_nonempty_amended tString 0 0).1 "just a string" rfl,
   (result_message_nonempty_amended tBoom 0 0).2.1 "boom" "Traceback: boom" rfl,
   (result_message_nonempty_amended tEmptyMsg 0 0).2.2
      (DiagnosticResult.mk "t1" DiagnosticStatus.PASS "" [] 0) rfl⟩
